import Mathlib

/-!
Shallow embedding of the AI provider orchestration layer of the
Quran-Recitation-Analyst backend (`src/backend/app/services/`).

Modelling conventions:
* Python floats are embedded as rationals (`ℚ`); the claimed properties are
  about the algorithms (clamping, averaging, fixed constants), not IEEE
  rounding.
* Python dictionaries and `json.loads` results are embedded as a small
  `Json` value type with association-list objects.
* The library call `json.loads` is a parameter (`parseJson : String → Option Json`)
  of the response-handling functions: `some j` models a successful parse,
  `none` models `json.JSONDecodeError`.
* Network round trips and the temporary-file subsystem are environments:
  the provider's answer is an `Except` value supplied by the caller, and the
  side effects of a transcription call are recorded as an event trace
  (`TraceEvent`), so that claims about temp-file lifetime and request
  contents become statements about the trace.
* Python exception control flow is embedded as `Except`; exception messages
  that Python builds with f-strings are reproduced textually, except that
  `', '.join(self.supported_formats)` iterates a Python `set` in unspecified
  order — the model fixes the source literal's order.
-/

/-- Embedded JSON values: the shape of `json.loads` results and of the
`data`/`metadata` dictionaries carried by `AIAnalysisResult`. Objects are
association lists in insertion order. -/
inductive Json where
  | null
  | bool (b : Bool)
  | num (q : ℚ)
  | str (s : String)
  | arr (elems : List Json)
  | obj (kvs : List (String × Json))

/-- Python truthiness of an embedded value (`bool(x)`): `None`, `False`,
`0`, `""`, `[]` and `\x7b\x7d` are falsy. -/
def Json.pyTruthy : Json → Bool
  | .null => false
  | .bool b => b
  | .num q => decide (q ≠ 0)
  | .str s => decide (s ≠ "")
  | .arr elems => !elems.isEmpty
  | .obj kvs => !kvs.isEmpty

/-- Python `x.get(key, default)` on an embedded value: only dictionaries
have `.get`; on any other value the attribute lookup raises
`AttributeError`, modelled as the error branch. -/
def Json.dictGet : Json → String → Json → Except String Json
  | .obj kvs, key, dflt => .ok (((kvs.find? (fun kv => kv.1 = key)).map Prod.snd).getD dflt)
  | _, _, _ => .error "object has no attribute get"

/-- `AIAnalysisResult` (ai_service.py:67-92): the standardized result shape.
`data` and `metadata` are already defaulted (the constructor applies
`data or ` `\x7b\x7d`), `confidence` holds whatever value the producer passed
(Python does not enforce the float annotation). -/
structure AIAnalysisResult where
  success : Bool
  data : Json
  error : Option String
  confidence : Option Json
  metadata : Json

/-- Python `v or` `\x7b\x7d` as used by the `AIAnalysisResult` constructor:
an omitted (`none`) or falsy argument becomes the empty dictionary. -/
def pyOrEmpty (v : Option Json) : Json :=
  match v with
  | none => .obj []
  | some j => if j.pyTruthy then j else .obj []

/-- The `AIAnalysisResult.__init__` of ai_service.py:70-82, with all five
arguments explicit (`none` models an omitted keyword argument). -/
def AIAnalysisResult.make (success : Bool) (data : Option Json) (error : Option String)
    (confidence : Option Json) (metadata : Option Json) : AIAnalysisResult :=
  ⟨success, pyOrEmpty data, error, confidence, pyOrEmpty metadata⟩

/-! ## RetryExecutor: `AIService.retry_on_failure` (ai_service.py:48-65) -/

/-- One observable event of a `retry_on_failure` run: an invocation of the
wrapped operation (with its attempt number) or an `asyncio.sleep` of the
given number of time units. -/
inductive RetryEv where
  | invoke (attempt : Nat)
  | sleep (units : Nat)
deriving DecidableEq, Repr

/-- The loop body of `retry_on_failure` (ai_service.py:52-63). The wrapped
operation is attempt-indexed (`op attempt`), so a stateful operation that
fails then succeeds is expressible. `fuel` starts equal to the number of
loop iterations `range(total)` still to run; exhausting it reproduces the
fall-through to line 65 with `last_error = None`. The result's error is
`some e` for the recorded last error, `none` when the loop body never ran. -/
def retryFromAux {ε α : Type} (op : Nat → Except ε α) (total : Nat) :
    Nat → Nat → Except (Option ε) α × List RetryEv
  | 0, _ => (.error none, [])
  | fuel + 1, attempt =>
    match op attempt with
    | .ok v => (.ok v, [.invoke attempt])
    | .error e =>
      if attempt = total - 1 then
        (.error (some e), [.invoke attempt])
      else
        let rest := retryFromAux op total fuel (attempt + 1)
        (rest.1, .invoke attempt :: .sleep (2 ^ attempt) :: rest.2)

/-- `AIService.retry_on_failure` with `self.rate_limit_retry = total`
(constructed with 3). Returns the passed-through value or the
`AIServiceError` wrapping the last error, together with the event trace. -/
def retry_on_failure {ε α : Type} (op : Nat → Except ε α) (total : Nat) :
    Except (Option ε) α × List RetryEv :=
  retryFromAux op total total 0

/-! ## WhisperService: validation, confidence estimator, transcription flows
    (whisper_service.py) -/

/-- `self.supported_formats` (whisper_service.py:29-31), in the source
literal's order. -/
def supported_formats : List String :=
  ["mp3", "mp4", "mpeg", "mpga", "m4a", "wav", "webm", "ogg", "flac"]

/-- `self.max_file_size = 25 * 1024 * 1024` (whisper_service.py:32). -/
def max_file_size : Nat := 25 * 1024 * 1024

/-- `self.model = "whisper-1"` (whisper_service.py:28). -/
def whisper_model : String := "whisper-1"

/-- The caller-visible part of a `BinaryIO` audio argument: its payload size
(`seek`/`tell`) and its optional `name` attribute (`none` models a file
object without the attribute). -/
structure AudioFile where
  size : Nat
  name : Option String

/-- The validation failures of `validate_audio_file`, carrying the data that
the Python f-strings interpolate. -/
inductive AudioValidationError where
  | tooLarge (size maxSize : Nat)
  | empty
  | unsupportedFormat (ext : String) (supported : List String)
deriving DecidableEq, Repr

/-- The message the corresponding `AIServiceError` carries
(whisper_service.py:245-259); the join order of the supported set is fixed
to the source literal's order. -/
def AudioValidationError.message : AudioValidationError → String
  | .tooLarge size maxSize =>
    "Audio file too large: " ++ toString size ++ " bytes (max: " ++ toString maxSize ++ " bytes)"
  | .empty => "Audio file is empty"
  | .unsupportedFormat ext supported =>
    "Unsupported audio format: " ++ ext ++ ". Supported formats: " ++
      String.intercalate ", " supported

/-- Python `str.split('.')` on the character list: always yields a nonempty
list of (possibly empty) chunks. -/
def splitOnDot : List Char → List (List Char)
  | [] => [[]]
  | c :: cs =>
    let rest := splitOnDot cs
    if c = '.' then [] :: rest
    else
      match rest with
      | [] => [[c]]
      | r :: rs => (c :: r) :: rs

/-- `audio_file.name.split('.')[-1].lower()` (whisper_service.py:254):
Python `split` always yields a nonempty list, and `[-1]` takes its last
element (for a dot-free name, the whole name). -/
def file_extension (name : String) : String :=
  String.mk (((splitOnDot name.data).getLastD []).map Char.toLower)

/-- `WhisperService.validate_audio_file` (whisper_service.py:236-266):
size checks first (too large, then empty), then — only when a truthy
`name` attribute exists — the extension check. -/
def validate_audio_file (audio_file : AudioFile) : Except AudioValidationError Unit :=
  if audio_file.size > max_file_size then
    .error (.tooLarge audio_file.size max_file_size)
  else if audio_file.size = 0 then
    .error .empty
  else
    match audio_file.name with
    | some n =>
      if n ≠ "" then
        if supported_formats.contains (file_extension n) then .ok ()
        else .error (.unsupportedFormat (file_extension n) supported_formats)
      else .ok ()
    | none => .ok ()

/-- The duck-typed transcript object seen by `_calculate_confidence`:
`segments` is `none` when the attribute is missing, and each segment is
abstracted to its optional `avg_logprob`; `text` is `none` when the
attribute is missing or not a string (so that `transcript.text.strip()`
raises). -/
structure PyTranscript where
  segments : Option (List (Option ℚ))
  text : Option String

/-- The per-segment clamp `min(1.0, max(0.0, segment.avg_logprob + 1.0))`
over the segments that have an `avg_logprob` (whisper_service.py:169-173). -/
def segmentConfidences (segs : List (Option ℚ)) : List ℚ :=
  segs.filterMap (fun lp? => lp?.map (fun lp => min 1 (max 0 (lp + 1))))

/-- The length-heuristic fallback and the enclosing `except` default
(whisper_service.py:178-188). -/
def length_fallback (t : PyTranscript) : ℚ :=
  match t.text with
  | some s =>
    let n := s.trim.length
    if n > 50 then 85 / 100
    else if n > 10 then 70 / 100
    else 50 / 100
  | none => 75 / 100

/-- `WhisperService._calculate_confidence` (whisper_service.py:163-188):
mean of clamped per-segment log-probabilities when the segment branch is
taken and produces a nonempty list, else the length heuristic, else the
default `0.75`. -/
def _calculate_confidence (t : PyTranscript) : ℚ :=
  match t.segments with
  | some segs =>
    if !segs.isEmpty then
      let confidences := segmentConfidences segs
      if !confidences.isEmpty then
        confidences.sum / (confidences.length : ℚ)
      else length_fallback t
    else length_fallback t
  | none => length_fallback t

/-- A well-formed provider transcription response (`verbose_json`):
`segments` abstracted to their `avg_logprob`s (`none` within the list for a
segment without the attribute), `words` abstracted to opaque tokens. -/
structure WhisperTranscript where
  text : String
  language : String
  duration : ℚ
  segments : Option (List (Option ℚ))
  words : Option (List String)

/-- The view of a provider response that `_calculate_confidence` consumes. -/
def WhisperTranscript.toPy (t : WhisperTranscript) : PyTranscript :=
  ⟨t.segments, some t.text⟩

/-- `getattr(transcript, 'segments', [])` rendered into the result `data`. -/
def segmentsJson : Option (List (Option ℚ)) → Json
  | none => .arr []
  | some segs =>
    .arr (segs.map (fun lp? =>
      match lp? with
      | some lp => .obj [("avg_logprob", .num lp)]
      | none => .obj []))

/-- `getattr(transcript, 'words', [])` rendered into the result `data`. -/
def wordsJson : Option (List String) → Json
  | none => .arr []
  | some ws => .arr (ws.map .str)

/-- The logical shape of one `client.audio.transcriptions.create` call. -/
structure TranscriptionRequest where
  model : String
  language : Option String
  prompt : Option String
  response_format : String
  temperature : ℚ
  timestamp_granularities : Option (List String)
deriving DecidableEq, Repr

/-- The observable host/network events of one transcription-service call:
creation of the named temporary file, the write of the audio payload into
it, the provider round trip, and `os.unlink` of the temporary file. -/
inductive TraceEvent where
  | tempCreate
  | tempWrite
  | apiCall (req : TranscriptionRequest)
  | tempDelete
deriving DecidableEq, Repr

/-- The environment of one call: whether reading the input stream and
writing it into the temporary file succeed, and the provider's answer to
the round trip (an exception message or a transcript). -/
structure WhisperEnv where
  write_ok : Bool
  api : Except String WhisperTranscript

/-- The default-domain seed phrase substituted for a falsy prompt
(whisper_service.py:60-61): `if not prompt` is a truthiness test, so both a
missing prompt and an explicitly empty one are replaced. -/
def default_whisper_prompt : String :=
  "بسم الله الرحمن الرحيم، القرآن الكريم، السورة، الآية، التلاوة، التجويد"

/-- The prompt actually sent (`if not prompt: prompt = ...`). -/
def effective_prompt (prompt : Option String) : String :=
  match prompt with
  | some p => if p = "" then default_whisper_prompt else p
  | none => default_whisper_prompt

/-- `WhisperService.transcribe_audio` (whisper_service.py:48-107): validate,
default the prompt, create and fill the temporary file, call the provider
with `verbose_json` and temperature 0, delete the temporary file in the
`finally` around the provider call, and convert any exception into a failed
result. A failure while writing the payload (`write_ok = false`) escapes
the `with` block before that `finally` is installed. -/
def transcribe_audio (audio_file : AudioFile) (language : String) (prompt : Option String)
    (env : WhisperEnv) : AIAnalysisResult × List TraceEvent :=
  match validate_audio_file audio_file with
  | .error e =>
    (.make false none (some ("Audio transcription failed: " ++ e.message)) none none, [])
  | .ok _ =>
    if env.write_ok then
      let req : TranscriptionRequest :=
        ⟨whisper_model, some language, some (effective_prompt prompt), "verbose_json", 0, none⟩
      match env.api with
      | .ok transcript =>
        (.make true
          (some (.obj [("text", .str transcript.text),
                       ("language", .str transcript.language),
                       ("duration", .num transcript.duration),
                       ("segments", segmentsJson transcript.segments)]))
          none
          (some (.num (_calculate_confidence transcript.toPy)))
          (some (.obj [("model", .str whisper_model),
                       ("type", .str "audio_transcription"),
                       ("language", .str language),
                       ("api_version", .str "v1.56+")])),
         [.tempCreate, .tempWrite, .apiCall req, .tempDelete])
      | .error e =>
        (.make false none (some ("Audio transcription failed: " ++ e)) none none,
         [.tempCreate, .tempWrite, .apiCall req, .tempDelete])
    else
      (.make false none (some "Audio transcription failed: temporary file write error") none none,
       [.tempCreate])

/-- `WhisperService.transcribe_with_timestamps` (whisper_service.py:109-161):
same flow without a prompt, requesting word- and segment-level timestamps. -/
def transcribe_with_timestamps (audio_file : AudioFile) (language : String)
    (env : WhisperEnv) : AIAnalysisResult × List TraceEvent :=
  match validate_audio_file audio_file with
  | .error e =>
    (.make false none (some ("Timestamped transcription failed: " ++ e.message)) none none, [])
  | .ok _ =>
    if env.write_ok then
      let req : TranscriptionRequest :=
        ⟨whisper_model, some language, none, "verbose_json", 0, some ["word", "segment"]⟩
      match env.api with
      | .ok transcript =>
        (.make true
          (some (.obj [("text", .str transcript.text),
                       ("language", .str transcript.language),
                       ("duration", .num transcript.duration),
                       ("words", wordsJson transcript.words),
                       ("segments", segmentsJson transcript.segments)]))
          none
          (some (.num (_calculate_confidence transcript.toPy)))
          (some (.obj [("model", .str whisper_model),
                       ("type", .str "timestamped_transcription"),
                       ("language", .str language),
                       ("api_version", .str "v1.56+")])),
         [.tempCreate, .tempWrite, .apiCall req, .tempDelete])
      | .error e =>
        (.make false none (some ("Timestamped transcription failed: " ++ e)) none none,
         [.tempCreate, .tempWrite, .apiCall req, .tempDelete])
    else
      (.make false none (some "Timestamped transcription failed: temporary file write error") none none,
       [.tempCreate])

/-- `result.text[:100] + "..." if len(result.text) > 100 else result.text`
(whisper_service.py:215). -/
def text_sample (s : String) : String :=
  if s.length > 100 then s.take 100 ++ "..." else s

/-- `WhisperService.detect_language` (whisper_service.py:190-234): same flow
with neither a forced language nor a prompt; the result-level confidence is
the fixed `0.8` while the estimator's score goes into `data`. -/
def detect_language (audio_file : AudioFile) (env : WhisperEnv) :
    AIAnalysisResult × List TraceEvent :=
  match validate_audio_file audio_file with
  | .error e =>
    (.make false none (some ("Language detection failed: " ++ e.message)) none none, [])
  | .ok _ =>
    if env.write_ok then
      let req : TranscriptionRequest :=
        ⟨whisper_model, none, none, "verbose_json", 0, none⟩
      match env.api with
      | .ok transcript =>
        (.make true
          (some (.obj [("detected_language", .str transcript.language),
                       ("text_sample", .str (text_sample transcript.text)),
                       ("confidence_score", .num (_calculate_confidence transcript.toPy))]))
          none
          (some (.num (8 / 10)))
          (some (.obj [("model", .str whisper_model),
                       ("type", .str "language_detection"),
                       ("api_version", .str "v1.56+")])),
         [.tempCreate, .tempWrite, .apiCall req, .tempDelete])
      | .error e =>
        (.make false none (some ("Language detection failed: " ++ e)) none none,
         [.tempCreate, .tempWrite, .apiCall req, .tempDelete])
    else
      (.make false none (some "Language detection failed: temporary file write error") none none,
       [.tempCreate])

/-! ## GeminiService: response handling of the three analysis operations
    (gemini_service.py) -/

/-- `self.model_name = 'gemini-2.0-flash-exp'` (gemini_service.py:27). -/
def gemini_model_name : String := "gemini-2.0-flash-exp"

/-- `GeminiService.analyze_mistakes` response handling
(gemini_service.py:132-156). `parseJson` stands for `json.loads` (`none`
models `JSONDecodeError`); `response` is the outcome of `generate_text`
(its exception message, or the response text). A parsed non-dictionary
makes `analysis_data.get` raise `AttributeError`, which only the outer
`except Exception` catches. -/
def analyze_mistakes_result (parseJson : String → Option Json)
    (response : Except String String) : AIAnalysisResult :=
  match response with
  | .error e => .make false none (some ("Mistake analysis failed: " ++ e)) none none
  | .ok text =>
    match parseJson text with
    | some analysis_data =>
      match analysis_data.dictGet "confidence_score" (.num (8 / 10)) with
      | .ok conf =>
        .make true (some analysis_data) none (some conf)
          (some (.obj [("model", .str gemini_model_name),
                       ("type", .str "mistake_analysis"),
                       ("sdk", .str "google-genai-2025")]))
      | .error e => .make false none (some ("Mistake analysis failed: " ++ e)) none none
    | none =>
      .make true (some (.obj [("analysis", .str text)])) none (some (.num (7 / 10)))
        (some (.obj [("model", .str gemini_model_name),
                     ("type", .str "text_analysis"),
                     ("sdk", .str "google-genai-2025")]))

/-- `GeminiService.generate_insights` response handling
(gemini_service.py:193-215): same parse-or-fallback policy with fallback
key `"insights"`. -/
def generate_insights_result (parseJson : String → Option Json)
    (response : Except String String) : AIAnalysisResult :=
  match response with
  | .error e => .make false none (some ("Insights generation failed: " ++ e)) none none
  | .ok text =>
    match parseJson text with
    | some insights_data =>
      match insights_data.dictGet "confidence_score" (.num (8 / 10)) with
      | .ok conf =>
        .make true (some insights_data) none (some conf)
          (some (.obj [("model", .str gemini_model_name),
                       ("type", .str "coaching_insights"),
                       ("sdk", .str "google-genai-2025")]))
      | .error e => .make false none (some ("Insights generation failed: " ++ e)) none none
    | none =>
      .make true (some (.obj [("insights", .str text)])) none (some (.num (7 / 10)))
        (some (.obj [("model", .str gemini_model_name),
                     ("type", .str "text_insights"),
                     ("sdk", .str "google-genai-2025")]))

/-- `GeminiService.categorize_mistake` response handling
(gemini_service.py:269-289): a parse failure is a hard failure (no raw-text
fallback). -/
def categorize_mistake_result (parseJson : String → Option Json)
    (response : Except String String) : AIAnalysisResult :=
  match response with
  | .error e => .make false none (some ("Mistake categorization failed: " ++ e)) none none
  | .ok text =>
    match parseJson text with
    | some category_data =>
      match category_data.dictGet "confidence" (.num (8 / 10)) with
      | .ok conf =>
        .make true (some category_data) none (some conf)
          (some (.obj [("model", .str gemini_model_name),
                       ("type", .str "mistake_categorization"),
                       ("sdk", .str "google-genai-2025")]))
      | .error e => .make false none (some ("Mistake categorization failed: " ++ e)) none none
    | none =>
      .make false none (some "Failed to parse categorization response") none none

/-! ## Helper lemmas -/

@[simp]
theorem make_success (b : Bool) (d : Option Json) (e : Option String) (c : Option Json)
    (m : Option Json) : (AIAnalysisResult.make b d e c m).success = b := rfl

@[simp]
theorem make_data (b : Bool) (d : Option Json) (e : Option String) (c : Option Json)
    (m : Option Json) : (AIAnalysisResult.make b d e c m).data = pyOrEmpty d := rfl

@[simp]
theorem make_error (b : Bool) (d : Option Json) (e : Option String) (c : Option Json)
    (m : Option Json) : (AIAnalysisResult.make b d e c m).error = e := rfl

@[simp]
theorem make_confidence (b : Bool) (d : Option Json) (e : Option String) (c : Option Json)
    (m : Option Json) : (AIAnalysisResult.make b d e c m).confidence = c := rfl

/-! ## C1: retry loop -/

/-- C1: with `maxAttempts = 3`, `retry_on_failure` invokes the operation
sequentially at attempts 0, 1, 2; on the first success it passes the value
through and stops; after each failed non-final attempt it sleeps `2^attempt`
units (1 after attempt 0, 2 after attempt 1, nothing after attempt 2); and
when all three attempts fail it returns the exhaustion error wrapping the
last error, having invoked the operation exactly three times. -/
theorem retry_on_failure_three_attempts {ε α : Type} (op : Nat → Except ε α) :
    (∀ v, op 0 = .ok v →
      retry_on_failure op 3 = (.ok v, [.invoke 0])) ∧
    (∀ e₀ v, op 0 = .error e₀ → op 1 = .ok v →
      retry_on_failure op 3 = (.ok v, [.invoke 0, .sleep 1, .invoke 1])) ∧
    (∀ e₀ e₁ v, op 0 = .error e₀ → op 1 = .error e₁ → op 2 = .ok v →
      retry_on_failure op 3 =
        (.ok v, [.invoke 0, .sleep 1, .invoke 1, .sleep 2, .invoke 2])) ∧
    (∀ e₀ e₁ e₂, op 0 = .error e₀ → op 1 = .error e₁ → op 2 = .error e₂ →
      retry_on_failure op 3 =
        (.error (some e₂), [.invoke 0, .sleep 1, .invoke 1, .sleep 2, .invoke 2])) := by
  refine ⟨?_, ?_, ?_, ?_⟩
  · intro v h0
    simp [retry_on_failure, retryFromAux, h0]
  · intro e₀ v h0 h1
    simp [retry_on_failure, retryFromAux, h0, h1]
  · intro e₀ e₁ v h0 h1 h2
    simp [retry_on_failure, retryFromAux, h0, h1, h2]
  · intro e₀ e₁ e₂ h0 h1 h2
    simp [retry_on_failure, retryFromAux, h0, h1, h2]

/-- Witness for C1: an operation failing at attempts 0 and 1 and succeeding
at attempt 2 is invoked three times with backoff sleeps of 1 and 2 units and
returns the success value. -/
theorem retry_on_failure_three_attempts_witness :
    retry_on_failure (fun n => if n < 2 then (.error n : Except Nat Nat) else .ok 42) 3 =
      (.ok 42, [.invoke 0, .sleep 1, .invoke 1, .sleep 2, .invoke 2]) :=
  (retry_on_failure_three_attempts _).2.2.1 0 1 42 rfl rfl rfl

/-! ## C2, C3: confidence estimator -/

/-- Per-segment log-probability data is present exactly when the segment
branch of `_calculate_confidence` produces a nonempty clamped list. -/
def hasSegmentData (t : PyTranscript) : Bool :=
  match t.segments with
  | some segs => !(segmentConfidences segs).isEmpty
  | none => false

/-- C2: `_calculate_confidence` returns the arithmetic mean of the clamped
per-segment values when per-segment log-probability data is present, the
length heuristic on the trimmed text otherwise, and the default `0.75` when
the text field is missing or malformed. -/
theorem calculate_confidence_spec (t : PyTranscript) :
    (∀ segs, t.segments = some segs → hasSegmentData t = true →
      _calculate_confidence t =
        (segmentConfidences segs).sum / ((segmentConfidences segs).length : ℚ)) ∧
    (hasSegmentData t = false → ∀ s, t.text = some s →
      _calculate_confidence t =
        if s.trim.length > 50 then 85 / 100
        else if s.trim.length > 10 then 70 / 100
        else 50 / 100) ∧
    (hasSegmentData t = false → t.text = none → _calculate_confidence t = 75 / 100) := by
  refine ⟨?_, ?_, ?_⟩
  · intro segs hseg hdata
    have hconf : (segmentConfidences segs).isEmpty = false := by
      simpa [hasSegmentData, hseg] using hdata
    have hsegs : segs.isEmpty = false := by
      cases segs with
      | nil => simp [segmentConfidences] at hconf
      | cons a l => rfl
    simp [_calculate_confidence, hseg, hsegs, hconf]
  · intro hdata s htext
    cases hseg : t.segments with
    | none => simp [_calculate_confidence, hseg, length_fallback, htext]
    | some segs =>
      have hconf : (segmentConfidences segs).isEmpty = true := by
        simpa [hasSegmentData, hseg] using hdata
      cases hsegs : segs.isEmpty <;>
        simp [_calculate_confidence, hseg, hsegs, hconf, length_fallback, htext]
  · intro hdata htext
    cases hseg : t.segments with
    | none => simp [_calculate_confidence, hseg, length_fallback, htext]
    | some segs =>
      have hconf : (segmentConfidences segs).isEmpty = true := by
        simpa [hasSegmentData, hseg] using hdata
      cases hsegs : segs.isEmpty <;>
        simp [_calculate_confidence, hseg, hsegs, hconf, length_fallback, htext]

/-- Witness for C2: one segment with `avg_logprob = -0.5` yields the mean of
the singleton clamped list, `0.5`. -/
theorem calculate_confidence_spec_witness :
    _calculate_confidence ⟨some [some (-(1 : ℚ) / 2)], some "hi"⟩ = 1 / 2 := by
  have h := (calculate_confidence_spec ⟨some [some (-(1 : ℚ) / 2)], some "hi"⟩).1
    [some (-(1 : ℚ) / 2)] rfl rfl
  rw [h]
  have hs : segmentConfidences [some (-(1 : ℚ) / 2)] = [1 / 2] := by
    simp only [segmentConfidences, List.filterMap_cons, List.filterMap_nil, Option.map_some']
    norm_num [inf_eq_min, sup_eq_max, min_def, max_def]
  rw [hs]
  norm_num

/-- Every clamped per-segment value lies in `[0, 1]`. -/
theorem segmentConfidences_mem_unit (segs : List (Option ℚ)) :
    ∀ x ∈ segmentConfidences segs, 0 ≤ x ∧ x ≤ 1 := by
  intro x hx
  simp only [segmentConfidences, List.mem_filterMap] at hx
  obtain ⟨lp?, _, hmap⟩ := hx
  cases lp? with
  | none => simp at hmap
  | some lp =>
    simp at hmap
    subst hmap
    constructor
    · exact le_min (by norm_num) (le_max_left 0 (lp + 1))
    · exact min_le_left 1 (max 0 (lp + 1))

/-- The mean of a nonempty list of values in `[0, 1]` lies in `[0, 1]`. -/
theorem list_mean_mem_unit (l : List ℚ) (h : ∀ x ∈ l, 0 ≤ x ∧ x ≤ 1) (hne : l ≠ []) :
    0 ≤ l.sum / (l.length : ℚ) ∧ l.sum / (l.length : ℚ) ≤ 1 := by
  have hlen : 0 < (l.length : ℚ) := by
    exact_mod_cast List.length_pos.mpr hne
  constructor
  · exact div_nonneg (List.sum_nonneg fun x hx => (h x hx).1) hlen.le
  · rw [div_le_one hlen]
    calc l.sum ≤ l.length • (1 : ℚ) := List.sum_le_card_nsmul l 1 fun x hx => (h x hx).2
    _ = (l.length : ℚ) := by simp

/-- C3: `_calculate_confidence` is total (a pure Lean function, so it never
raises) and its value always lies in `[0, 1]`, for every combination of
present, absent, or extreme log-probability data and text. -/
theorem calculate_confidence_bounds (t : PyTranscript) :
    0 ≤ _calculate_confidence t ∧ _calculate_confidence t ≤ 1 := by
  have hfb : 0 ≤ length_fallback t ∧ length_fallback t ≤ 1 := by
    unfold length_fallback
    cases t.text with
    | none => norm_num
    | some s =>
      dsimp only
      split <;> norm_num
      split <;> norm_num
  unfold _calculate_confidence
  cases hseg : t.segments with
  | none => exact hfb
  | some segs =>
    by_cases hsegs : segs = []
    · simpa [hsegs] using hfb
    · by_cases hconf : segmentConfidences segs = []
      · simpa [hsegs, hconf] using hfb
      · simpa [hsegs, hconf] using
          list_mean_mem_unit (segmentConfidences segs) (segmentConfidences_mem_unit segs) hconf

/-! ## C4, C5: parse-or-fallback policies -/

/-- Whether an embedded JSON value is a dictionary (the only values with a
`.get` attribute). -/
def Json.isObj : Json → Bool
  | .obj _ => true
  | _ => false

/-- Counterexample for C4: a backend response `"5"` parses as JSON (to the
number 5, not an object), yet `analyze_mistakes` does not succeed — the
attribute lookup on the parsed value raises, the outer handler catches it,
and the result is a failure, contradicting the claim that any JSON-parsing
response yields `success = true` with the parsed value as `data`. -/
theorem analyze_mistakes_nonobject_not_success :
    (analyze_mistakes_result (fun s => if s = "5" then some (.num 5) else none)
      (.ok "5")).success = false := rfl

/-- C4 (amended): when the response text parses as a JSON *object*, the
result is a success carrying the parsed object as `data` and its
`confidence_score` value (default `0.8`) as confidence; when the text does
not parse, the result soft-succeeds with the raw text under `"analysis"`
and confidence `0.7`; when the text parses as non-object JSON, the result
is a failure with an error set. -/
theorem analyze_mistakes_parse_policy (parseJson : String → Option Json) (text : String) :
    (∀ kvs, parseJson text = some (.obj kvs) →
      analyze_mistakes_result parseJson (.ok text) =
        ⟨true, .obj kvs, none,
         some (((kvs.find? (fun kv => kv.1 = "confidence_score")).map Prod.snd).getD
           (.num (8 / 10))),
         .obj [("model", .str gemini_model_name), ("type", .str "mistake_analysis"),
               ("sdk", .str "google-genai-2025")]⟩) ∧
    (parseJson text = none →
      analyze_mistakes_result parseJson (.ok text) =
        ⟨true, .obj [("analysis", .str text)], none, some (.num (7 / 10)),
         .obj [("model", .str gemini_model_name), ("type", .str "text_analysis"),
               ("sdk", .str "google-genai-2025")]⟩) ∧
    (∀ j, parseJson text = some j → j.isObj = false →
      (analyze_mistakes_result parseJson (.ok text)).success = false ∧
      (analyze_mistakes_result parseJson (.ok text)).error.isSome = true) := by
  refine ⟨?_, ?_, ?_⟩
  · intro kvs hp
    cases kvs with
    | nil =>
      simp [analyze_mistakes_result, hp, Json.dictGet, AIAnalysisResult.make, pyOrEmpty,
        Json.pyTruthy]
    | cons kv rest =>
      simp [analyze_mistakes_result, hp, Json.dictGet, AIAnalysisResult.make, pyOrEmpty,
        Json.pyTruthy]
  · intro hp
    simp [analyze_mistakes_result, hp, AIAnalysisResult.make, pyOrEmpty, Json.pyTruthy]
  · intro j hp hobj
    cases j <;> simp_all [analyze_mistakes_result, hp, Json.dictGet, Json.isObj,
      AIAnalysisResult.make, pyOrEmpty]

/-- Witness for C4: a parsed object with `confidence_score = 0.9` produces a
success whose data is the object and whose confidence is that score. -/
theorem analyze_mistakes_parse_policy_witness :
    analyze_mistakes_result (fun _ => some (.obj [("confidence_score", Json.num (9 / 10))]))
      (.ok "response") =
      ⟨true, .obj [("confidence_score", .num (9 / 10))], none, some (.num (9 / 10)),
       .obj [("model", .str gemini_model_name), ("type", .str "mistake_analysis"),
             ("sdk", .str "google-genai-2025")]⟩ := by
  have h := (analyze_mistakes_parse_policy
    (fun _ => some (.obj [("confidence_score", Json.num (9 / 10))])) "response").1
    [("confidence_score", Json.num (9 / 10))] rfl
  simpa using h

/-- C5: when the response text does not parse as JSON, `categorize_mistake`
returns a hard failure with the parse-failure error message (empty data, no
confidence) — it never soft-succeeds with the raw text. -/
theorem categorize_mistake_parse_failure (parseJson : String → Option Json) (text : String)
    (h : parseJson text = none) :
    categorize_mistake_result parseJson (.ok text) =
      ⟨false, .obj [], some "Failed to parse categorization response", none, .obj []⟩ := by
  simp [categorize_mistake_result, h, AIAnalysisResult.make, pyOrEmpty]

/-- Witness for C5: a stub returning non-JSON text yields the hard failure. -/
theorem categorize_mistake_parse_failure_witness :
    categorize_mistake_result (fun _ => none) (.ok "not json at all") =
      ⟨false, .obj [], some "Failed to parse categorization response", none, .obj []⟩ :=
  categorize_mistake_parse_failure (fun _ => none) "not json at all" rfl

/-! ## C6: failure invariant of the standardized result -/

/-- Failure invariant of `analyze_mistakes`. -/
theorem analyze_mistakes_inv (p : String → Option Json) (r : Except String String) :
    (analyze_mistakes_result p r).success = false →
    (analyze_mistakes_result p r).data = Json.obj [] ∧
    (analyze_mistakes_result p r).error.isSome = true := by
  cases r with
  | error e => intro _; simp [analyze_mistakes_result, pyOrEmpty]
  | ok text =>
    cases hp : p text with
    | none => intro h; simp [analyze_mistakes_result, hp] at h
    | some j =>
      cases j with
      | obj kvs => intro h; simp [analyze_mistakes_result, hp, Json.dictGet] at h
      | null => intro _; simp [analyze_mistakes_result, hp, Json.dictGet, pyOrEmpty]
      | bool b => intro _; simp [analyze_mistakes_result, hp, Json.dictGet, pyOrEmpty]
      | num q => intro _; simp [analyze_mistakes_result, hp, Json.dictGet, pyOrEmpty]
      | str s => intro _; simp [analyze_mistakes_result, hp, Json.dictGet, pyOrEmpty]
      | arr xs => intro _; simp [analyze_mistakes_result, hp, Json.dictGet, pyOrEmpty]

/-- Failure invariant of `generate_insights`. -/
theorem generate_insights_inv (p : String → Option Json) (r : Except String String) :
    (generate_insights_result p r).success = false →
    (generate_insights_result p r).data = Json.obj [] ∧
    (generate_insights_result p r).error.isSome = true := by
  cases r with
  | error e => intro _; simp [generate_insights_result, pyOrEmpty]
  | ok text =>
    cases hp : p text with
    | none => intro h; simp [generate_insights_result, hp] at h
    | some j =>
      cases j with
      | obj kvs => intro h; simp [generate_insights_result, hp, Json.dictGet] at h
      | null => intro _; simp [generate_insights_result, hp, Json.dictGet, pyOrEmpty]
      | bool b => intro _; simp [generate_insights_result, hp, Json.dictGet, pyOrEmpty]
      | num q => intro _; simp [generate_insights_result, hp, Json.dictGet, pyOrEmpty]
      | str s => intro _; simp [generate_insights_result, hp, Json.dictGet, pyOrEmpty]
      | arr xs => intro _; simp [generate_insights_result, hp, Json.dictGet, pyOrEmpty]

/-- Failure invariant of `categorize_mistake`. -/
theorem categorize_mistake_inv (p : String → Option Json) (r : Except String String) :
    (categorize_mistake_result p r).success = false →
    (categorize_mistake_result p r).data = Json.obj [] ∧
    (categorize_mistake_result p r).error.isSome = true := by
  cases r with
  | error e => intro _; simp [categorize_mistake_result, pyOrEmpty]
  | ok text =>
    cases hp : p text with
    | none => intro _; simp [categorize_mistake_result, hp, pyOrEmpty]
    | some j =>
      cases j with
      | obj kvs => intro h; simp [categorize_mistake_result, hp, Json.dictGet] at h
      | null => intro _; simp [categorize_mistake_result, hp, Json.dictGet, pyOrEmpty]
      | bool b => intro _; simp [categorize_mistake_result, hp, Json.dictGet, pyOrEmpty]
      | num q => intro _; simp [categorize_mistake_result, hp, Json.dictGet, pyOrEmpty]
      | str s => intro _; simp [categorize_mistake_result, hp, Json.dictGet, pyOrEmpty]
      | arr xs => intro _; simp [categorize_mistake_result, hp, Json.dictGet, pyOrEmpty]

/-- Failure invariant of `transcribe_audio`. -/
theorem transcribe_audio_inv (f : AudioFile) (lang : String) (prompt : Option String)
    (env : WhisperEnv) :
    (transcribe_audio f lang prompt env).1.success = false →
    (transcribe_audio f lang prompt env).1.data = Json.obj [] ∧
    (transcribe_audio f lang prompt env).1.error.isSome = true := by
  cases hv : validate_audio_file f with
  | error e => intro _; simp [transcribe_audio, hv, pyOrEmpty]
  | ok u =>
    cases hw : env.write_ok with
    | false => intro _; simp [transcribe_audio, hv, hw, pyOrEmpty]
    | true =>
      cases ha : env.api with
      | ok t => intro h; simp [transcribe_audio, hv, hw, ha] at h
      | error e => intro _; simp [transcribe_audio, hv, hw, ha, pyOrEmpty]

/-- Failure invariant of `transcribe_with_timestamps`. -/
theorem transcribe_with_timestamps_inv (f : AudioFile) (lang : String) (env : WhisperEnv) :
    (transcribe_with_timestamps f lang env).1.success = false →
    (transcribe_with_timestamps f lang env).1.data = Json.obj [] ∧
    (transcribe_with_timestamps f lang env).1.error.isSome = true := by
  cases hv : validate_audio_file f with
  | error e => intro _; simp [transcribe_with_timestamps, hv, pyOrEmpty]
  | ok u =>
    cases hw : env.write_ok with
    | false => intro _; simp [transcribe_with_timestamps, hv, hw, pyOrEmpty]
    | true =>
      cases ha : env.api with
      | ok t => intro h; simp [transcribe_with_timestamps, hv, hw, ha] at h
      | error e => intro _; simp [transcribe_with_timestamps, hv, hw, ha, pyOrEmpty]

/-- Failure invariant of `detect_language`. -/
theorem detect_language_inv (f : AudioFile) (env : WhisperEnv) :
    (detect_language f env).1.success = false →
    (detect_language f env).1.data = Json.obj [] ∧
    (detect_language f env).1.error.isSome = true := by
  cases hv : validate_audio_file f with
  | error e => intro _; simp [detect_language, hv, pyOrEmpty]
  | ok u =>
    cases hw : env.write_ok with
    | false => intro _; simp [detect_language, hv, hw, pyOrEmpty]
    | true =>
      cases ha : env.api with
      | ok t => intro h; simp [detect_language, hv, hw, ha] at h
      | error e => intro _; simp [detect_language, hv, hw, ha, pyOrEmpty]

/-- C6: every `AIAnalysisResult` produced by any of the six exposed
operations satisfies the invariant `success = false ⇒ data = ` `\x7b\x7d`
`and error is set`, over every parse function, response, audio input and
environment. -/
theorem analysis_result_failure_invariant :
    (∀ p r, (analyze_mistakes_result p r).success = false →
      (analyze_mistakes_result p r).data = Json.obj [] ∧
      (analyze_mistakes_result p r).error.isSome = true) ∧
    (∀ p r, (generate_insights_result p r).success = false →
      (generate_insights_result p r).data = Json.obj [] ∧
      (generate_insights_result p r).error.isSome = true) ∧
    (∀ p r, (categorize_mistake_result p r).success = false →
      (categorize_mistake_result p r).data = Json.obj [] ∧
      (categorize_mistake_result p r).error.isSome = true) ∧
    (∀ f lang prompt env, (transcribe_audio f lang prompt env).1.success = false →
      (transcribe_audio f lang prompt env).1.data = Json.obj [] ∧
      (transcribe_audio f lang prompt env).1.error.isSome = true) ∧
    (∀ f lang env, (transcribe_with_timestamps f lang env).1.success = false →
      (transcribe_with_timestamps f lang env).1.data = Json.obj [] ∧
      (transcribe_with_timestamps f lang env).1.error.isSome = true) ∧
    (∀ f env, (detect_language f env).1.success = false →
      (detect_language f env).1.data = Json.obj [] ∧
      (detect_language f env).1.error.isSome = true) :=
  ⟨analyze_mistakes_inv, generate_insights_inv, categorize_mistake_inv,
   transcribe_audio_inv, transcribe_with_timestamps_inv, detect_language_inv⟩

/-- Witness for C6: concrete failing runs of all six operations have empty
data and a set error message. -/
theorem analysis_result_failure_invariant_witness :
    ((analyze_mistakes_result (fun _ => none) (.error "boom")).data = Json.obj [] ∧
     (analyze_mistakes_result (fun _ => none) (.error "boom")).error.isSome = true) ∧
    ((generate_insights_result (fun _ => none) (.error "boom")).data = Json.obj [] ∧
     (generate_insights_result (fun _ => none) (.error "boom")).error.isSome = true) ∧
    ((categorize_mistake_result (fun _ => none) (.ok "x")).data = Json.obj [] ∧
     (categorize_mistake_result (fun _ => none) (.ok "x")).error.isSome = true) ∧
    ((transcribe_audio ⟨0, none⟩ "ar" none ⟨true, .error "down"⟩).1.data = Json.obj [] ∧
     (transcribe_audio ⟨0, none⟩ "ar" none ⟨true, .error "down"⟩).1.error.isSome = true) ∧
    ((transcribe_with_timestamps ⟨0, none⟩ "ar" ⟨true, .error "down"⟩).1.data = Json.obj [] ∧
     (transcribe_with_timestamps ⟨0, none⟩ "ar" ⟨true, .error "down"⟩).1.error.isSome = true) ∧
    ((detect_language ⟨0, none⟩ ⟨true, .error "down"⟩).1.data = Json.obj [] ∧
     (detect_language ⟨0, none⟩ ⟨true, .error "down"⟩).1.error.isSome = true) :=
  ⟨analysis_result_failure_invariant.1 (fun _ => none) (.error "boom") rfl,
   analysis_result_failure_invariant.2.1 (fun _ => none) (.error "boom") rfl,
   analysis_result_failure_invariant.2.2.1 (fun _ => none) (.ok "x") rfl,
   analysis_result_failure_invariant.2.2.2.1 ⟨0, none⟩ "ar" none ⟨true, .error "down"⟩ rfl,
   analysis_result_failure_invariant.2.2.2.2.1 ⟨0, none⟩ "ar" ⟨true, .error "down"⟩ rfl,
   analysis_result_failure_invariant.2.2.2.2.2 ⟨0, none⟩ ⟨true, .error "down"⟩ rfl⟩

/-! ## C7: audio validation before temporary storage and network -/

/-- C7: `validate_audio_file` rejects empty payloads, rejects payloads
above the 25 MB maximum, and — when a filename is available — rejects
unsupported extensions with an error naming the supported set; and whenever
validation fails, the transcription operations perform no temporary-file or
network event. -/
theorem validate_audio_spec (f : AudioFile) :
    (f.size = 0 → validate_audio_file f = .error .empty) ∧
    (f.size > max_file_size →
      validate_audio_file f = .error (.tooLarge f.size max_file_size)) ∧
    (∀ n, f.name = some n → n ≠ "" → f.size ≠ 0 → f.size ≤ max_file_size →
      supported_formats.contains (file_extension n) = false →
      validate_audio_file f =
        .error (.unsupportedFormat (file_extension n) supported_formats)) ∧
    (∀ lang prompt env e, validate_audio_file f = .error e →
      (transcribe_audio f lang prompt env).2 = []) ∧
    (∀ lang env e, validate_audio_file f = .error e →
      (transcribe_with_timestamps f lang env).2 = []) ∧
    (∀ env e, validate_audio_file f = .error e →
      (detect_language f env).2 = []) := by
  refine ⟨?_, ?_, ?_, ?_, ?_, ?_⟩
  · intro h
    have h2 : ¬ f.size > max_file_size := by rw [h]; decide
    simp [validate_audio_file, h, h2]
  · intro h
    simp [validate_audio_file, h]
  · intro n hn hne hz hle hfmt
    have h2 : ¬ f.size > max_file_size := not_lt.mpr hle
    simp [validate_audio_file, h2, hz, hn, hne]
    simpa using hfmt
  · intro lang prompt env e h
    simp [transcribe_audio, h]
  · intro lang env e h
    simp [transcribe_with_timestamps, h]
  · intro env e h
    simp [detect_language, h]

/-- Witness for C7: an empty payload, an oversized payload and an
unsupported `.txt` extension are all rejected, and the rejected empty
payload produces no temp-file or network event in `transcribe_audio`. -/
theorem validate_audio_spec_witness :
    validate_audio_file ⟨0, none⟩ = .error .empty ∧
    validate_audio_file ⟨30 * 1024 * 1024, none⟩ =
      .error (.tooLarge (30 * 1024 * 1024) max_file_size) ∧
    validate_audio_file ⟨4, some "notes.txt"⟩ =
      .error (.unsupportedFormat (file_extension "notes.txt") supported_formats) ∧
    (transcribe_audio ⟨0, none⟩ "ar" none ⟨true, .error "down"⟩).2 = [] :=
  ⟨(validate_audio_spec ⟨0, none⟩).1 rfl,
   (validate_audio_spec ⟨30 * 1024 * 1024, none⟩).2.1 (by decide),
   (validate_audio_spec ⟨4, some "notes.txt"⟩).2.2.1 "notes.txt" rfl (by decide) (by decide)
     (by decide) (by decide),
   (validate_audio_spec ⟨0, none⟩).2.2.2.1 "ar" none ⟨true, .error "down"⟩ .empty
     ((validate_audio_spec ⟨0, none⟩).1 rfl)⟩

/-! ## C8: temporary-file lifetime -/

/-- C8 (failing input): a valid 4-byte `.mp3` payload whose copy into the
temporary file fails (for example, the disk is full) leaves the created
temporary file behind: the call's trace contains the creation and no
deletion, because the cleanup `finally` of whisper_service.py:98-101 only
guards the provider call, not the write at lines 66-68. -/
theorem transcribe_audio_temp_leak :
    (transcribe_audio ⟨4, some "a.mp3"⟩ "ar" none ⟨false, .error "unreached"⟩).2 =
      [TraceEvent.tempCreate] ∧
    (transcribe_audio ⟨4, some "a.mp3"⟩ "ar" none ⟨false, .error "unreached"⟩).1.success =
      false := by
  constructor <;> rfl

/-! ## C9: detect_language confidence asymmetry and sample truncation -/

/-- C9: on every successful `detect_language` run, the result-level
confidence is the fixed `0.8` regardless of the estimator's inner score,
which is stored separately in `data.confidence_score`, and the text sample
is the transcript text, truncated to its first 100 characters plus an
ellipsis marker when longer than 100 characters. -/
theorem detect_language_fixed_confidence (f : AudioFile) (env : WhisperEnv)
    (t : WhisperTranscript) (hv : validate_audio_file f = .ok ())
    (hw : env.write_ok = true) (ha : env.api = .ok t) :
    (detect_language f env).1.confidence = some (.num (8 / 10)) ∧
    (detect_language f env).1.data =
      .obj [("detected_language", .str t.language),
            ("text_sample",
              .str (if t.text.length > 100 then t.text.take 100 ++ "..." else t.text)),
            ("confidence_score", .num (_calculate_confidence t.toPy))] := by
  constructor <;> simp [detect_language, hv, hw, ha, text_sample, pyOrEmpty, Json.pyTruthy]

/-- Witness for C9: a successful detection of a 5-character transcript with
one segment of `avg_logprob = -0.5` has result confidence `0.8` while the
inner `confidence_score` is the estimator's `0.5`, and the sample is the
untruncated text. -/
theorem detect_language_fixed_confidence_witness :
    (detect_language ⟨4, none⟩
        ⟨true, .ok ⟨"hello", "en", 3, some [some (-(1 : ℚ) / 2)], none⟩⟩).1.confidence =
      some (.num (8 / 10)) ∧
    (detect_language ⟨4, none⟩
        ⟨true, .ok ⟨"hello", "en", 3, some [some (-(1 : ℚ) / 2)], none⟩⟩).1.data =
      .obj [("detected_language", .str "en"), ("text_sample", .str "hello"),
            ("confidence_score", .num (1 / 2))] := by
  have h := detect_language_fixed_confidence ⟨4, none⟩
    ⟨true, .ok ⟨"hello", "en", 3, some [some (-(1 : ℚ) / 2)], none⟩⟩
    ⟨"hello", "en", 3, some [some (-(1 : ℚ) / 2)], none⟩ rfl rfl rfl
  have hs : segmentConfidences [some (-(1 : ℚ) / 2)] = [1 / 2] := by
    simp only [segmentConfidences, List.filterMap_cons, List.filterMap_nil, Option.map_some']
    norm_num [inf_eq_min, sup_eq_max, min_def, max_def]
  have hc : _calculate_confidence
      (WhisperTranscript.toPy ⟨"hello", "en", 3, some [some (-(1 : ℚ) / 2)], none⟩) = 1 / 2 := by
    simp [_calculate_confidence, WhisperTranscript.toPy, hs]
  have hl : ¬ (("hello" : String).length > 100) := by decide
  refine ⟨h.1, ?_⟩
  rw [h.2]
  simp [if_neg hl, hc]

/-! ## C10: truthiness of the caller's prompt -/

/-- C10: calling `transcribe_audio` with an explicitly empty prompt behaves
exactly as calling it with no prompt — `if not prompt` tests truthiness,
not presence — so the request sent to the backend carries the fixed
domain-biasing seed phrase. -/
theorem transcribe_audio_empty_prompt (f : AudioFile) (lang : String) (env : WhisperEnv) :
    transcribe_audio f lang (some "") env = transcribe_audio f lang none env ∧
    (validate_audio_file f = .ok () → env.write_ok = true →
      (transcribe_audio f lang (some "") env).2 =
        [.tempCreate, .tempWrite,
         .apiCall ⟨whisper_model, some lang, some default_whisper_prompt, "verbose_json",
           0, none⟩,
         .tempDelete]) := by
  constructor
  · rfl
  · intro hv hw
    cases ha : env.api with
    | ok t => simp [transcribe_audio, hv, hw, ha, effective_prompt]
    | error e => simp [transcribe_audio, hv, hw, ha, effective_prompt]

/-- Witness for C10: a concrete call with an empty prompt equals the
promptless call and sends the seed phrase to the backend. -/
theorem transcribe_audio_empty_prompt_witness :
    transcribe_audio ⟨4, none⟩ "ar" (some "") ⟨true, .error "x"⟩ =
      transcribe_audio ⟨4, none⟩ "ar" none ⟨true, .error "x"⟩ ∧
    (transcribe_audio ⟨4, none⟩ "ar" (some "") ⟨true, .error "x"⟩).2 =
      [.tempCreate, .tempWrite,
       .apiCall ⟨whisper_model, some "ar", some default_whisper_prompt, "verbose_json",
         0, none⟩,
       .tempDelete] :=
  ⟨(transcribe_audio_empty_prompt ⟨4, none⟩ "ar" ⟨true, .error "x"⟩).1,
   (transcribe_audio_empty_prompt ⟨4, none⟩ "ar" ⟨true, .error "x"⟩).2 rfl rfl⟩
